/-
  Verification development for the OpenThread `MeshCoP` secure-transport
  session layer (`src/core/meshcop/secure_transport.hpp`).

  The repository snapshot contains the class header only; inline member
  functions (`IsConnectionActive`, `IsConnected`, `Matches`, the public
  `Disconnect()` forwarding to `Disconnect(kDisconnectedLocalClosed)`, and
  the constants) are embedded directly from the header.  Member functions
  whose bodies live in the missing `secure_transport.cpp` are modelled from
  the specification, and each such definition is marked
  `Modelled from the spec:` in its doc comment.
-/
import Mathlib

namespace MeshCoP

/-- The session states, from `SecureSession::State`
(secure_transport.hpp lines 216-223). -/
inductive State where
  | kStateDisconnected
  | kStateInitializing
  | kStateConnecting
  | kStateConnected
  | kStateDisconnecting
deriving DecidableEq, Repr

/-- Connect events, from `SecureSession::ConnectEvent`
(secure_transport.hpp lines 110-116). -/
inductive ConnectEvent where
  | kConnected
  | kDisconnectedPeerClosed
  | kDisconnectedLocalClosed
  | kDisconnectedMaxAttempts
  | kDisconnectedError
deriving DecidableEq, Repr

/-- The OpenThread error codes used by this module (spec §7 error taxonomy). -/
inductive Error where
  | kErrorNone
  | kErrorInvalidState
  | kErrorNoBufs
  | kErrorAlready
  | kErrorInvalidArgs
  | kErrorNotFound
  | kErrorNotImplemented
  | kErrorParse
  | kErrorFailed
deriving DecidableEq, Repr

/-- An IPv6 socket address (peer address + port), abstracting `Ip6::SockAddr`. -/
structure SockAddr where
  addr : Nat
  port : Nat
deriving DecidableEq, Repr

/-- Message info attached to a datagram, abstracting `Ip6::MessageInfo`:
the peer (source) address/port and the local (destination) address/port. -/
structure MessageInfo where
  peerAddr : Nat
  peerPort : Nat
  sockAddr : Nat
  sockPort : Nat
deriving DecidableEq, Repr

/-- Modelled from the spec: `Ip6::MessageInfo::HasSamePeerAddrAndPort`
(declared in `net/socket.hpp`, not part of the snapshot).  Per the spec's
peer-matching description (§3 `peerAddress`: "the address+port of the
current or most recent peer; used to match subsequent inbound datagrams"),
it compares exactly the peer address and peer port of the two infos. -/
def MessageInfo.HasSamePeerAddrAndPort (a b : MessageInfo) : Bool :=
  a.peerAddr == b.peerAddr && a.peerPort == b.peerPort

/-- An application message; only its length matters for the `Send` contract. -/
structure Message where
  length : Nat
deriving DecidableEq, Repr

/-- `SecureSession::kGuardTimeNewConnectionMilli` (secure_transport.hpp line 207). -/
def kGuardTimeNewConnectionMilli : Nat := 2000

/-- `SecureSession::kApplicationDataMaxLength` (secure_transport.hpp line 211,
the 1152-byte default used when the TLS API is disabled). -/
def kApplicationDataMaxLength : Nat := 1152

/-- The observable per-session state: the connection state, the pending
connect event, the bound peer, and the time of the most recent disconnect
(used by the transport's guard-time check; `none` when the session has
never disconnected). -/
structure SecureSession where
  mState : State
  mConnectEvent : ConnectEvent
  mMessageInfo : MessageInfo
  mDisconnectTime : Option Nat
deriving DecidableEq, Repr

/-- `SecureSession::IsConnectionActive` (secure_transport.hpp line 196):
`return (mState != kStateDisconnected);`. -/
def SecureSession.IsConnectionActive (s : SecureSession) : Bool :=
  s.mState != State.kStateDisconnected

/-- `SecureSession::IsConnected` (secure_transport.hpp line 204):
`return (mState == kStateConnected);`. -/
def SecureSession.IsConnected (s : SecureSession) : Bool :=
  s.mState == State.kStateConnected

/-- `SecureSession::IsDisconnected` (secure_transport.hpp line 227). -/
def SecureSession.IsDisconnected (s : SecureSession) : Bool :=
  s.mState == State.kStateDisconnected

/-- `SecureSession::IsInitializing` (secure_transport.hpp line 228). -/
def SecureSession.IsInitializing (s : SecureSession) : Bool :=
  s.mState == State.kStateInitializing

/-- `SecureSession::IsConnectingOrConnected` (secure_transport.hpp line 231). -/
def SecureSession.IsConnectingOrConnected (s : SecureSession) : Bool :=
  s.mState == State.kStateConnecting || s.mState == State.kStateConnected

/-- `SecureSession::Matches` (secure_transport.hpp line 233):
`return mMessageInfo.HasSamePeerAddrAndPort(aInfo);`. -/
def SecureSession.Matches (s : SecureSession) (aInfo : MessageInfo) : Bool :=
  s.mMessageInfo.HasSamePeerAddrAndPort aInfo

/-- Modelled from the spec: `SecureSession::Connect`
(body in the missing `secure_transport.cpp`).  Spec §4.1: "valid only from
Disconnected; fails with an invalid-state error otherwise.  Transitions to
Initializing and records `peerAddress`"; the header adds that
`kErrorInvalidState` is also returned when the transport is not ready
(not open).  Returns the error code and the updated session. -/
def SecureSession.Connect (isOpen : Bool) (s : SecureSession) (aSockAddr : SockAddr) :
    Error × SecureSession :=
  if s.IsDisconnected && isOpen then
    (Error.kErrorNone,
      { s with
        mState := State.kStateInitializing
        mMessageInfo :=
          { s.mMessageInfo with peerAddr := aSockAddr.addr, peerPort := aSockAddr.port } })
  else
    (Error.kErrorInvalidState, s)

/-- Result of `Send`: the returned error code together with whether the
session took over ownership of the message (spec §5: "Send() transfers
message ownership to the Session only on success"). -/
structure SendResult where
  error : Error
  ownershipTaken : Bool
deriving DecidableEq, Repr

/-- Modelled from the spec: `SecureSession::Send`
(body in the missing `secure_transport.cpp`).  Spec §4.1: "valid only when
Connected; otherwise fails with invalid-state ... message length exceeding
the negotiated maximum application-data length fails with a
buffer-capacity error and ownership is returned to the caller"; the header
(lines 170-181) documents that ownership transfers exactly on
`kErrorNone`. -/
def SecureSession.Send (s : SecureSession) (aMessage : Message) : SendResult :=
  if !s.IsConnected then
    { error := Error.kErrorInvalidState, ownershipTaken := false }
  else if aMessage.length > kApplicationDataMaxLength then
    { error := Error.kErrorNoBufs, ownershipTaken := false }
  else
    { error := Error.kErrorNone, ownershipTaken := true }

/-- Modelled from the spec: the private `SecureSession::Disconnect(ConnectEvent)`
(body in the missing `secure_transport.cpp`).  Spec §4.1: "idempotent; if
already Disconnected, no-op; otherwise forces an immediate transition to
Disconnecting with the event, best-effort flush of a close notification,
then Disconnected", the whole sequence completing synchronously (spec §5)
and delivering the event to `connectedCallback` exactly once.  Returns the
updated session, the sequence of states traversed, and the connect events
delivered to the callback. -/
def SecureSession.DisconnectEvt (s : SecureSession) (aEvent : ConnectEvent) (now : Nat) :
    SecureSession × List State × List ConnectEvent :=
  if s.IsDisconnected then
    (s, [], [])
  else
    ({ s with
        mState := State.kStateDisconnected
        mConnectEvent := aEvent
        mDisconnectTime := some now },
      [State.kStateDisconnecting, State.kStateDisconnected],
      [aEvent])

/-- The public `SecureSession::Disconnect` (secure_transport.hpp line 168):
`void Disconnect(void) { Disconnect(kDisconnectedLocalClosed); }`. -/
def SecureSession.Disconnect (s : SecureSession) (now : Nat) :
    SecureSession × List State × List ConnectEvent :=
  s.DisconnectEvt ConnectEvent.kDisconnectedLocalClosed now

/-- The events that drive a session: the two application operations
(`Connect`, `Disconnect`) and the engine-reported events of spec §4.1
(engine setup completed, handshake completed, peer-initiated close,
engine handshake/record failure or retry exhaustion). -/
inductive SessionEv where
  | evConnect (peer : SockAddr)
  | evDisconnect (now : Nat)
  | evSetupDone
  | evHandshakeDone
  | evPeerClose (now : Nat)
  | evEngineFail (now : Nat)
deriving DecidableEq, Repr

/-- Modelled from the spec: one step of the session state machine of §4.1
(the method bodies are in the missing `secure_transport.cpp`).  Returns the
updated session, the list of states entered during the step, and the
connect events delivered to `connectedCallback` during the step.
Disconnected→Initializing on `Connect()`; Initializing→Connecting once
engine setup succeeds; Connecting→Connected on handshake completion
(fires `kConnected`); active→Disconnecting→Disconnected on `Disconnect()`,
peer close, or engine failure, firing the matching terminal event once. -/
def SecureSession.step (isOpen : Bool) (s : SecureSession) :
    SessionEv → SecureSession × List State × List ConnectEvent
  | SessionEv.evConnect peer =>
    let r := s.Connect isOpen peer
    (r.2, if r.1 == Error.kErrorNone then [State.kStateInitializing] else [], [])
  | SessionEv.evDisconnect now => s.Disconnect now
  | SessionEv.evSetupDone =>
    if s.IsInitializing then
      ({ s with mState := State.kStateConnecting }, [State.kStateConnecting], [])
    else
      (s, [], [])
  | SessionEv.evHandshakeDone =>
    if s.mState == State.kStateConnecting then
      ({ s with mState := State.kStateConnected, mConnectEvent := ConnectEvent.kConnected },
        [State.kStateConnected], [ConnectEvent.kConnected])
    else
      (s, [], [])
  | SessionEv.evPeerClose now =>
    if s.IsConnectingOrConnected then
      s.DisconnectEvt ConnectEvent.kDisconnectedPeerClosed now
    else
      (s, [], [])
  | SessionEv.evEngineFail now =>
    if s.IsConnectingOrConnected then
      s.DisconnectEvt ConnectEvent.kDisconnectedError now
    else
      (s, [], [])

/-- Runs a sequence of session events, concatenating the traversed states
and the delivered connect events. -/
def SecureSession.run (isOpen : Bool) (s : SecureSession) :
    List SessionEv → SecureSession × List State × List ConnectEvent
  | [] => (s, [], [])
  | ev :: rest =>
    let r1 := s.step isOpen ev
    let r2 := r1.1.run isOpen rest
    (r2.1, r1.2.1 ++ r2.2.1, r1.2.2 ++ r2.2.2)

/-- The application-visible operations on a session: `Connect()` and
`Disconnect()` (the alphabet of claim C1). -/
inductive COp where
  | connect (peer : SockAddr)
  | disconnect (now : Nat)
deriving DecidableEq, Repr

/-- Embeds an application operation into the session event alphabet. -/
def COp.toEv : COp → SessionEv
  | COp.connect p => SessionEv.evConnect p
  | COp.disconnect n => SessionEv.evDisconnect n

/-- The state-transition edges of spec §4.1: Disconnected→Initializing→
Connecting→Connected, any-state→Disconnecting, Disconnecting→Disconnected. -/
def allowedEdge : State → State → Bool
  | State.kStateDisconnected, State.kStateInitializing => true
  | State.kStateInitializing, State.kStateConnecting => true
  | State.kStateConnecting, State.kStateConnected => true
  | _, State.kStateDisconnecting => true
  | State.kStateDisconnecting, State.kStateDisconnected => true
  | _, _ => false

/-- Checks that, starting from `a`, every consecutive pair in the state
list is an allowed edge. -/
def chainFrom (a : State) : List State → Bool
  | [] => true
  | b :: l => allowedEdge a b && chainFrom b l

/-- The last state of a traversal starting at `a`. -/
def lastFrom (a : State) : List State → State
  | [] => a
  | b :: l => lastFrom b l

/-- Whether a connect event is terminal (every event except `kConnected`),
i.e. reports how the session left Connected/Connecting. -/
def ConnectEvent.isTerminal : ConnectEvent → Bool
  | ConnectEvent.kConnected => false
  | _ => true

/-- The number of terminal connect events in a delivered-event list. -/
def terminalCount (l : List ConnectEvent) : Nat :=
  (l.filter ConnectEvent.isTerminal).length

/-- The number of steps of a run at which the session goes from active
(not Disconnected) to Disconnected, i.e. the number of connection attempts
that end during the run. -/
def SecureSession.runEnds (isOpen : Bool) (s : SecureSession) : List SessionEv → Nat
  | [] => 0
  | ev :: rest =>
    let s1 := (s.step isOpen ev).1
    (if s.IsConnectionActive && s1.IsDisconnected then 1 else 0) + s1.runEnds isOpen rest

/-- The transport state relevant to connection-attempt accounting and the
guard-time policy: socket open flag, server-role flag, the attempt limit
and remaining counter, and the owned session. -/
structure SecureTransport where
  mIsOpen : Bool
  mIsServer : Bool
  mMaxConnectionAttempts : Nat
  mRemainingConnectionAttempts : Nat
  mSession : SecureSession
deriving DecidableEq, Repr

/-- `SecureTransport::IsClosed` (secure_transport.hpp line 597):
`return !mIsOpen;`. -/
def SecureTransport.IsClosed (t : SecureTransport) : Bool :=
  !t.mIsOpen

/-- Modelled from the spec: `SecureTransport::SetMaxConnectionAttempts`
(body in the missing `secure_transport.cpp`).  Spec §4.2: "valid only
while closed; `max == 0` means unlimited.  Resets
`remainingConnectionAttempts` to `max`"; the header (lines 544-559)
documents `kErrorInvalidState` when the socket is not closed. -/
def SecureTransport.SetMaxConnectionAttempts (t : SecureTransport) (aMaxAttempts : Nat) :
    Error × SecureTransport :=
  if t.mIsOpen then
    (Error.kErrorInvalidState, t)
  else
    (Error.kErrorNone,
      { t with
        mMaxConnectionAttempts := aMaxAttempts
        mRemainingConnectionAttempts := aMaxAttempts })

/-- Modelled from the spec: `SecureTransport::Open`
(body in the missing `secure_transport.cpp`).  Spec §4.2: "fails with
already-open if called twice without an intervening `Close()`". -/
def SecureTransport.Open (t : SecureTransport) : Error × SecureTransport :=
  if t.mIsOpen then
    (Error.kErrorAlready, t)
  else
    (Error.kErrorNone, { t with mIsOpen := true })

/-- Modelled from the spec: `SecureTransport::DecremenetRemainingConnectionAttempts`
(declared at secure_transport.hpp line 649, body in the missing
`secure_transport.cpp`; the source's spelling is kept).  Spec §3:
`remainingConnectionAttempts` is "a monotonically-decreasing counter". -/
def SecureTransport.DecremenetRemainingConnectionAttempts (t : SecureTransport) : SecureTransport :=
  if 0 < t.mRemainingConnectionAttempts then
    { t with mRemainingConnectionAttempts := t.mRemainingConnectionAttempts - 1 }
  else
    t

/-- Modelled from the spec: `SecureTransport::HasNoRemainingConnectionAttempts`
(declared at secure_transport.hpp line 650, body in the missing
`secure_transport.cpp`).  Spec §4.2: `max == 0` means unlimited, so the
counter is exhausted exactly when a limit is set and the remaining count
is zero. -/
def SecureTransport.HasNoRemainingConnectionAttempts (t : SecureTransport) : Bool :=
  0 < t.mMaxConnectionAttempts && t.mRemainingConnectionAttempts == 0

/-- Modelled from the spec: the guard-time check applied to a
new-connection attempt (spec §4.1 "Guard time" and §9: the check applies
only to a *different* peer arriving within
`kGuardTimeNewConnectionMilli` of the most recent disconnect). -/
def SecureTransport.GuardBlocks (t : SecureTransport) (aInfo : MessageInfo) (now : Nat) : Bool :=
  match t.mSession.mDisconnectTime with
  | none => false
  | some disconnectTime =>
    !(t.mSession.Matches aInfo) && now < disconnectTime + kGuardTimeNewConnectionMilli

/-- The observable outcome of `HandleReceive` for one inbound datagram:
whether a new inbound connection attempt was accepted, and whether the
auto-close callback fired. -/
structure RxOutcome where
  accepted : Bool
  autoClosed : Bool
deriving DecidableEq, Repr

/-- Modelled from the spec: `SecureTransport::HandleReceive`
(declared at secure_transport.hpp line 621, body in the missing
`secure_transport.cpp`).  Follows spec §4.2 steps 1-4: drop when closed;
forward to the session when the peer matches the active session (a
no-op on the accounting state modelled here); when the session is
Disconnected/Initializing and the transport is in server role, treat the
datagram as a new-connection attempt — apply the guard-time check, drop
if the counter is exhausted, otherwise accept: bind the new peer, enter
Initializing, decrement the counter, and if the counter is thereby
exhausted close the socket and fire `AutoCloseCallback`; otherwise drop. -/
def SecureTransport.HandleReceive (t : SecureTransport) (aInfo : MessageInfo) (now : Nat) :
    SecureTransport × RxOutcome :=
  if !t.mIsOpen then
    (t, { accepted := false, autoClosed := false })
  else if t.mSession.IsConnectionActive && t.mSession.Matches aInfo then
    (t, { accepted := false, autoClosed := false })
  else if (t.mSession.IsDisconnected || t.mSession.IsInitializing) && t.mIsServer then
    if t.GuardBlocks aInfo now then
      (t, { accepted := false, autoClosed := false })
    else if t.HasNoRemainingConnectionAttempts then
      (t, { accepted := false, autoClosed := false })
    else
      let t1 := SecureTransport.DecremenetRemainingConnectionAttempts
        { t with
          mSession :=
            { t.mSession with mState := State.kStateInitializing, mMessageInfo := aInfo } }
      if t1.HasNoRemainingConnectionAttempts then
        ({ t1 with mIsOpen := false }, { accepted := true, autoClosed := true })
      else
        (t1, { accepted := true, autoClosed := false })
  else
    (t, { accepted := false, autoClosed := false })

/-- A client-initiated outbound connect at the transport level: defers to
`SecureSession::Connect`; the connection-attempt counter is not involved
(spec §4.2: "client-initiated outbound connections are not counted
against this limit"). -/
def SecureTransport.ConnectPeer (t : SecureTransport) (aSockAddr : SockAddr) :
    Error × SecureTransport :=
  let r := t.mSession.Connect t.mIsOpen aSockAddr
  (r.1, { t with mSession := r.2 })

/-- Runs a list of inbound datagrams (message info and arrival time)
through `HandleReceive`, returning the final transport, the number of
accepted new-connection attempts, and the number of auto-close callback
invocations. -/
def SecureTransport.runAttempts (t : SecureTransport) :
    List (MessageInfo × Nat) → SecureTransport × Nat × Nat
  | [] => (t, 0, 0)
  | (info, now) :: rest =>
    let r1 := t.HandleReceive info now
    let r2 := r1.1.runAttempts rest
    (r2.1,
      (if r1.2.accepted then 1 else 0) + r2.2.1,
      (if r1.2.autoClosed then 1 else 0) + r2.2.2)

/-- A datagram from peer address `a` (peer port 1, arbitrary local info). -/
def freshInfo (a : Nat) : MessageInfo :=
  { peerAddr := a, peerPort := 1, sockAddr := 0, sockPort := 0 }

/-- `n` inbound connection attempts from pairwise distinct peers
`start, start+1, ...`, all at time 0. -/
def mkAttempts (n start : Nat) : List (MessageInfo × Nat) :=
  (List.range n).map (fun i => (freshInfo (start + i), 0))

/-- A freshly constructed session: Disconnected, never disconnected
before, no bound peer. -/
def initialSession : SecureSession :=
  { mState := State.kStateDisconnected
    mConnectEvent := ConnectEvent.kDisconnectedError
    mMessageInfo := { peerAddr := 0, peerPort := 0, sockAddr := 0, sockPort := 0 }
    mDisconnectTime := none }

/-- A closed server-role transport with its freshly constructed session
and no connection-attempt limit configured. -/
def closedServerTransport : SecureTransport :=
  { mIsOpen := false
    mIsServer := true
    mMaxConnectionAttempts := 0
    mRemainingConnectionAttempts := 0
    mSession := initialSession }

/-- The transport obtained from `closedServerTransport` by
`SetMaxConnectionAttempts n` followed by `Open` (the setup of claim C3). -/
def openedTransport (n : Nat) : SecureTransport :=
  ((closedServerTransport.SetMaxConnectionAttempts n).2.Open).2

/-- A certificate, abstracted to its Thread-OID v3 extension attributes:
an association list from the last OID digit (the Thread OID descriptor)
to the attribute's bytes. -/
structure Cert where
  threadAttrs : List (Nat × List Nat)
deriving DecidableEq, Repr

/-- Looks up the attribute for Thread OID descriptor `d`. -/
def Cert.findThreadAttr (c : Cert) (d : Nat) : Option (List Nat) :=
  ((c.threadAttrs.find? (fun p => p.1 == d)).map (fun p => p.2))

/-- Result of a certificate/attribute introspection call: the error code
and the reported output length. -/
structure AttrResult where
  error : Error
  attrLength : Nat
deriving DecidableEq, Repr

/-- Modelled from the spec: the private
`SecureTransport::Extension::GetThreadAttributeFromCertificate`
(declared at secure_transport.hpp lines 515-518, body in the missing
`secure_transport.cpp`).  Per the header retval lists (lines 425-431,
449-455) and spec §4.3/§7: a descriptor above 127 is `NotImplemented`; a
missing attribute is `NotFound`; a found attribute longer than the
caller's buffer is `NoBufs`, with the attribute length reported on both
success and the capacity failure (no silent truncation). -/
def GetThreadAttributeFromCertificate (aCert : Cert) (aThreadOidDescriptor : Int)
    (aBufferSize : Nat) : AttrResult :=
  if aThreadOidDescriptor > 127 then
    { error := Error.kErrorNotImplemented, attrLength := 0 }
  else
    match aCert.findThreadAttr aThreadOidDescriptor.toNat with
    | none => { error := Error.kErrorNotFound, attrLength := 0 }
    | some v =>
      if v.length > aBufferSize then
        { error := Error.kErrorNoBufs, attrLength := v.length }
      else
        { error := Error.kErrorNone, attrLength := v.length }

/-- Modelled from the spec:
`SecureTransport::Extension::GetThreadAttributeFromPeerCertificate`
(declared at secure_transport.hpp lines 433-435, body in the missing
`secure_transport.cpp`).  Requires an active connection
(`kErrorInvalidState` otherwise, header line 429), then reads the
attribute from the peer certificate. -/
def Extension.GetThreadAttributeFromPeerCertificate (connected : Bool) (peerCert : Cert)
    (aThreadOidDescriptor : Int) (aBufferSize : Nat) : AttrResult :=
  if !connected then
    { error := Error.kErrorInvalidState, attrLength := 0 }
  else
    GetThreadAttributeFromCertificate peerCert aThreadOidDescriptor aBufferSize

/-- Modelled from the spec:
`SecureTransport::Extension::GetThreadAttributeFromOwnCertificate`
(declared at secure_transport.hpp lines 457-459, body in the missing
`secure_transport.cpp`).  Requires an active connection
(`kErrorInvalidState` otherwise, header line 453), then reads the
attribute from the own certificate. -/
def Extension.GetThreadAttributeFromOwnCertificate (connected : Bool) (ownCert : Cert)
    (aThreadOidDescriptor : Int) (aBufferSize : Nat) : AttrResult :=
  if !connected then
    { error := Error.kErrorInvalidState, attrLength := 0 }
  else
    GetThreadAttributeFromCertificate ownCert aThreadOidDescriptor aBufferSize

/-- The length of the base64 encoding of `n` bytes. -/
def base64Length (n : Nat) : Nat :=
  4 * ((n + 2) / 3)

/-- Modelled from the spec:
`SecureTransport::Extension::GetPeerCertificateBase64`
(declared at secure_transport.hpp line 385, body in the missing
`secure_transport.cpp`).  `kErrorInvalidState` when not connected (header
line 381); `kErrorNoBufs` when the base64-encoded certificate does not
fit the caller's buffer, with the encoded length reported on both success
and the capacity failure (spec §4.3: no silent truncation). -/
def Extension.GetPeerCertificateBase64 (connected : Bool) (peerCertDerLength : Nat)
    (aCertBufferSize : Nat) : AttrResult :=
  if !connected then
    { error := Error.kErrorInvalidState, attrLength := 0 }
  else if base64Length peerCertDerLength > aCertBufferSize then
    { error := Error.kErrorNoBufs, attrLength := base64Length peerCertDerLength }
  else
    { error := Error.kErrorNone, attrLength := base64Length peerCertDerLength }

/-- Modelled from the spec:
`SecureTransport::Extension::GetPeerSubjectAttributeByOid`
(declared at secure_transport.hpp lines 408-412, body in the missing
`secure_transport.cpp`).  `kErrorInvalidState` when not connected (header
line 403); a subject attribute is looked up by its binary OID;
`kErrorNoBufs` when the value does not fit, with the value length
reported on both success and the capacity failure. -/
def Extension.GetPeerSubjectAttributeByOid (connected : Bool)
    (subjectAttrs : List (List Nat × List Nat)) (aOid : List Nat)
    (aBufferSize : Nat) : AttrResult :=
  if !connected then
    { error := Error.kErrorInvalidState, attrLength := 0 }
  else
    match (subjectAttrs.find? (fun p => p.1 == aOid)).map (fun p => p.2) with
    | none => { error := Error.kErrorNotFound, attrLength := 0 }
    | some v =>
      if v.length > aBufferSize then
        { error := Error.kErrorNoBufs, attrLength := v.length }
      else
        { error := Error.kErrorNone, attrLength := v.length }

/-- A session in the Connected state (used by concrete witnesses). -/
def connectedSession : SecureSession :=
  { initialSession with mState := State.kStateConnected }

/-- C9: `IsConnectionActive()` returns true exactly when the state is not
Disconnected; in particular it returns true in the Initializing state. -/
theorem c9_is_connection_active (s : SecureSession) :
    (s.IsConnectionActive = true ↔ s.mState ≠ State.kStateDisconnected) ∧
    (s.mState = State.kStateInitializing → s.IsConnectionActive = true) := by
  constructor
  · cases h : s.mState <;> simp [SecureSession.IsConnectionActive, h]
  · intro h
    simp [SecureSession.IsConnectionActive, h]

theorem c9_is_connection_active_witness :
    SecureSession.IsConnectionActive
      { initialSession with mState := State.kStateInitializing } = true :=
  (c9_is_connection_active { initialSession with mState := State.kStateInitializing }).2 rfl

/-- C10: `Matches` compares only the peer address and peer port of the
datagram's message info against the session's recorded peer, so two infos
with the same peer address and port match identically regardless of any
other field. -/
theorem c10_matches_peer_only (s : SecureSession) (i1 i2 : MessageInfo)
    (h1 : i1.peerAddr = i2.peerAddr) (h2 : i1.peerPort = i2.peerPort) :
    s.Matches i1 = s.Matches i2 := by
  simp [SecureSession.Matches, MessageInfo.HasSamePeerAddrAndPort, h1, h2]

theorem c10_matches_peer_only_witness :
    SecureSession.Matches initialSession
        { peerAddr := 5, peerPort := 6, sockAddr := 0, sockPort := 0 } =
      SecureSession.Matches initialSession
        { peerAddr := 5, peerPort := 6, sockAddr := 9, sockPort := 9 } :=
  c10_matches_peer_only initialSession _ _ rfl rfl

/-- C2: `Send` takes ownership of the message exactly when it returns
success; when the session is not Connected it fails with `InvalidState`
without taking ownership, and when the message exceeds the maximum
application-data length it fails with `NoBufs` leaving ownership with the
caller. -/
theorem c2_send_ownership (s : SecureSession) (m : Message) :
    ((s.Send m).ownershipTaken = true ↔ (s.Send m).error = Error.kErrorNone) ∧
    (s.mState ≠ State.kStateConnected →
      (s.Send m).error = Error.kErrorInvalidState ∧ (s.Send m).ownershipTaken = false) ∧
    (s.mState = State.kStateConnected → kApplicationDataMaxLength < m.length →
      (s.Send m).error = Error.kErrorNoBufs ∧ (s.Send m).ownershipTaken = false) := by
  cases h : s.mState <;>
    simp only [SecureSession.Send, SecureSession.IsConnected, h] <;>
    by_cases hl : kApplicationDataMaxLength < m.length <;>
    simp [hl]

theorem c2_send_ownership_witness :
    (connectedSession.Send { length := 2000 }).error = Error.kErrorNoBufs ∧
    (connectedSession.Send { length := 2000 }).ownershipTaken = false ∧
    (initialSession.Send { length := 5 }).error = Error.kErrorInvalidState ∧
    (initialSession.Send { length := 5 }).ownershipTaken = false :=
  ⟨((c2_send_ownership connectedSession { length := 2000 }).2.2 rfl (by decide)).1,
   ((c2_send_ownership connectedSession { length := 2000 }).2.2 rfl (by decide)).2,
   ((c2_send_ownership initialSession { length := 5 }).2.1 (by decide)).1,
   ((c2_send_ownership initialSession { length := 5 }).2.1 (by decide)).2⟩

/-- C6: `Connect` succeeds only from the Disconnected state, fails with
`InvalidState` in every other state (leaving the session unchanged), and
on success transitions the session to Initializing and records the peer
address and port. -/
theorem c6_connect (isOpen : Bool) (s : SecureSession) (peer : SockAddr) :
    ((s.Connect isOpen peer).1 = Error.kErrorNone → s.mState = State.kStateDisconnected) ∧
    (s.mState ≠ State.kStateDisconnected →
      (s.Connect isOpen peer).1 = Error.kErrorInvalidState ∧ (s.Connect isOpen peer).2 = s) ∧
    ((s.Connect isOpen peer).1 = Error.kErrorNone →
      (s.Connect isOpen peer).2.mState = State.kStateInitializing ∧
      (s.Connect isOpen peer).2.mMessageInfo.peerAddr = peer.addr ∧
      (s.Connect isOpen peer).2.mMessageInfo.peerPort = peer.port) := by
  cases h : s.mState <;> cases isOpen <;>
    simp [SecureSession.Connect, SecureSession.IsDisconnected, h]

theorem c6_connect_witness :
    (initialSession.Connect true { addr := 7, port := 8 }).2.mState = State.kStateInitializing ∧
    (initialSession.Connect true { addr := 7, port := 8 }).2.mMessageInfo.peerAddr = 7 ∧
    (connectedSession.Connect true { addr := 7, port := 8 }).1 = Error.kErrorInvalidState :=
  ⟨((c6_connect true initialSession { addr := 7, port := 8 }).2.2 rfl).1,
   ((c6_connect true initialSession { addr := 7, port := 8 }).2.2 rfl).2.1,
   ((c6_connect true connectedSession { addr := 7, port := 8 }).2.1 (by decide)).1⟩

/-- C7: `Disconnect()` is idempotent: on an already-Disconnected session
it is a no-op (no state change, no traversed states, no callback), and a
second `Disconnect()` right after a first one changes nothing and emits
nothing. -/
theorem c7_disconnect_idempotent (s : SecureSession) (n1 n2 : Nat) :
    ((s.Disconnect n1).1.Disconnect n2).1 = (s.Disconnect n1).1 ∧
    ((s.Disconnect n1).1.Disconnect n2).2.1 = [] ∧
    ((s.Disconnect n1).1.Disconnect n2).2.2 = [] ∧
    (s.mState = State.kStateDisconnected → s.Disconnect n1 = (s, [], [])) := by
  cases h : s.mState <;>
    simp [SecureSession.Disconnect, SecureSession.DisconnectEvt,
      SecureSession.IsDisconnected, h]

theorem c7_disconnect_idempotent_witness :
    ((connectedSession.Disconnect 5).1.Disconnect 9).1 = (connectedSession.Disconnect 5).1 ∧
    ((connectedSession.Disconnect 5).1.Disconnect 9).2.2 = [] ∧
    initialSession.Disconnect 3 = (initialSession, [], []) :=
  ⟨(c7_disconnect_idempotent connectedSession 5 9).1,
   (c7_disconnect_idempotent connectedSession 5 9).2.2.1,
   (c7_disconnect_idempotent initialSession 3 0).2.2.2 rfl⟩

/-- C8: every Extension introspection operation fails with `InvalidState`
when not connected; a too-small output buffer yields `NoBufs` with the
attribute length still reported (as it is on success); and the two
Thread-attribute operations return `NotImplemented` for every descriptor
above 127. -/
theorem c8_extension_introspection :
    (∀ (cert : Cert) (d : Int) (cap : Nat),
      Extension.GetThreadAttributeFromPeerCertificate false cert d cap =
        { error := Error.kErrorInvalidState, attrLength := 0 }) ∧
    (∀ (cert : Cert) (d : Int) (cap : Nat),
      Extension.GetThreadAttributeFromOwnCertificate false cert d cap =
        { error := Error.kErrorInvalidState, attrLength := 0 }) ∧
    (∀ (n cap : Nat),
      Extension.GetPeerCertificateBase64 false n cap =
        { error := Error.kErrorInvalidState, attrLength := 0 }) ∧
    (∀ (attrs : List (List Nat × List Nat)) (oid : List Nat) (cap : Nat),
      Extension.GetPeerSubjectAttributeByOid false attrs oid cap =
        { error := Error.kErrorInvalidState, attrLength := 0 }) ∧
    (∀ (cert : Cert) (d : Int) (cap : Nat) (v : List Nat), d ≤ 127 →
      cert.findThreadAttr d.toNat = some v →
      Extension.GetThreadAttributeFromPeerCertificate true cert d cap =
        { error := if cap < v.length then Error.kErrorNoBufs else Error.kErrorNone,
          attrLength := v.length }) ∧
    (∀ (cert : Cert) (d : Int) (cap : Nat) (v : List Nat), d ≤ 127 →
      cert.findThreadAttr d.toNat = some v →
      Extension.GetThreadAttributeFromOwnCertificate true cert d cap =
        { error := if cap < v.length then Error.kErrorNoBufs else Error.kErrorNone,
          attrLength := v.length }) ∧
    (∀ (n cap : Nat),
      Extension.GetPeerCertificateBase64 true n cap =
        { error := if cap < base64Length n then Error.kErrorNoBufs else Error.kErrorNone,
          attrLength := base64Length n }) ∧
    (∀ (attrs : List (List Nat × List Nat)) (oid : List Nat) (cap : Nat) (v : List Nat),
      (attrs.find? (fun p => p.1 == oid)).map (fun p => p.2) = some v →
      Extension.GetPeerSubjectAttributeByOid true attrs oid cap =
        { error := if cap < v.length then Error.kErrorNoBufs else Error.kErrorNone,
          attrLength := v.length }) ∧
    (∀ (cert : Cert) (d : Int) (cap : Nat), 127 < d →
      Extension.GetThreadAttributeFromPeerCertificate true cert d cap =
        { error := Error.kErrorNotImplemented, attrLength := 0 }) ∧
    (∀ (cert : Cert) (d : Int) (cap : Nat), 127 < d →
      Extension.GetThreadAttributeFromOwnCertificate true cert d cap =
        { error := Error.kErrorNotImplemented, attrLength := 0 }) := by
  refine ⟨fun cert d cap => rfl, fun cert d cap => rfl, fun n cap => rfl,
    fun attrs oid cap => rfl, ?_, ?_, ?_, ?_, ?_, ?_⟩
  · intro cert d cap v hd hv
    simp [Extension.GetThreadAttributeFromPeerCertificate,
      GetThreadAttributeFromCertificate, Int.not_lt.mpr hd, hv]
    split <;> rename_i hcap <;> simp [Nat.lt_of_not_le, hcap]
  · intro cert d cap v hd hv
    simp [Extension.GetThreadAttributeFromOwnCertificate,
      GetThreadAttributeFromCertificate, Int.not_lt.mpr hd, hv]
    split <;> rename_i hcap <;> simp [Nat.lt_of_not_le, hcap]
  · intro n cap
    simp [Extension.GetPeerCertificateBase64]
    split <;> rename_i hcap <;> simp [hcap]
  · intro attrs oid cap v hv
    simp [Extension.GetPeerSubjectAttributeByOid, hv]
    split <;> rename_i hcap <;> simp [hcap]
  · intro cert d cap hd
    simp [Extension.GetThreadAttributeFromPeerCertificate,
      GetThreadAttributeFromCertificate, hd]
  · intro cert d cap hd
    simp [Extension.GetThreadAttributeFromOwnCertificate,
      GetThreadAttributeFromCertificate, hd]

theorem c8_extension_introspection_witness :
    Extension.GetThreadAttributeFromPeerCertificate false ⟨[(3, [1, 2])]⟩ 3 10 =
      { error := Error.kErrorInvalidState, attrLength := 0 } ∧
    Extension.GetThreadAttributeFromPeerCertificate true ⟨[(3, [1, 2])]⟩ 3 1 =
      { error := Error.kErrorNoBufs, attrLength := 2 } ∧
    Extension.GetThreadAttributeFromOwnCertificate true ⟨[(3, [1, 2])]⟩ 200 10 =
      { error := Error.kErrorNotImplemented, attrLength := 0 } :=
  ⟨c8_extension_introspection.1 ⟨[(3, [1, 2])]⟩ 3 10,
   by
    have h := c8_extension_introspection.2.2.2.2.1 ⟨[(3, [1, 2])]⟩ 3 1 [1, 2]
      (by decide) (by decide)
    simpa using h,
   c8_extension_introspection.2.2.2.2.2.2.2.2.2 ⟨[(3, [1, 2])]⟩ 200 10 (by decide)⟩

/-- C4: for a session that disconnected at time `T`, an inbound
new-connection attempt from a different peer at any time strictly before
`T + 2000` is dropped by the transport's guard-time check with no effect,
while one at or after `T + 2000` (counter permitting) is accepted and the
session proceeds to Initializing. -/
theorem c4_guard_time (t : SecureTransport) (T now : Nat) (info : MessageInfo)
    (hOpen : t.mIsOpen = true) (hSrv : t.mIsServer = true)
    (hSt : t.mSession.mState = State.kStateDisconnected)
    (hT : t.mSession.mDisconnectTime = some T)
    (hPeer : t.mSession.Matches info = false) :
    (now < T + kGuardTimeNewConnectionMilli →
      t.HandleReceive info now = (t, { accepted := false, autoClosed := false })) ∧
    (T + kGuardTimeNewConnectionMilli ≤ now →
      t.HasNoRemainingConnectionAttempts = false →
      (t.HandleReceive info now).2.accepted = true ∧
      (t.HandleReceive info now).1.mSession.mState = State.kStateInitializing) := by
  constructor
  · intro hNow
    simp [SecureTransport.HandleReceive, SecureTransport.GuardBlocks, hOpen, hSrv, hT,
      hPeer, hNow, SecureSession.IsConnectionActive, SecureSession.IsDisconnected, hSt]
  · intro hNow hRem
    simp only [SecureTransport.HandleReceive, SecureTransport.GuardBlocks, hOpen, hSrv, hT,
      hPeer, Nat.not_lt.mpr hNow, SecureSession.IsConnectionActive,
      SecureSession.IsDisconnected, SecureSession.IsInitializing, hSt, hRem]
    simp [SecureTransport.DecremenetRemainingConnectionAttempts]
    split <;> split <;> simp

theorem chainFrom_append (a : State) (l1 l2 : List State) :
    chainFrom a (l1 ++ l2) = (chainFrom a l1 && chainFrom (lastFrom a l1) l2) := by
  induction l1 generalizing a with
  | nil => simp [chainFrom, lastFrom]
  | cons b l ih => simp [chainFrom, lastFrom, ih, Bool.and_assoc]

theorem lastFrom_append (a : State) (l1 l2 : List State) :
    lastFrom a (l1 ++ l2) = lastFrom (lastFrom a l1) l2 := by
  induction l1 generalizing a with
  | nil => simp [lastFrom]
  | cons b l ih => simp [lastFrom, ih]

theorem step_chain (isOpen : Bool) (s : SecureSession) (ev : SessionEv) :
    chainFrom s.mState (s.step isOpen ev).2.1 = true ∧
    lastFrom s.mState (s.step isOpen ev).2.1 = (s.step isOpen ev).1.mState := by
  cases ev <;> cases isOpen <;> cases h : s.mState <;>
    simp [SecureSession.step, SecureSession.Connect, SecureSession.Disconnect,
      SecureSession.DisconnectEvt, SecureSession.IsDisconnected,
      SecureSession.IsInitializing, SecureSession.IsConnectingOrConnected, h,
      chainFrom, lastFrom, allowedEdge]

theorem run_chain (isOpen : Bool) (evs : List SessionEv) (s : SecureSession) :
    chainFrom s.mState (s.run isOpen evs).2.1 = true ∧
    lastFrom s.mState (s.run isOpen evs).2.1 = (s.run isOpen evs).1.mState := by
  induction evs generalizing s with
  | nil => simp [SecureSession.run, chainFrom, lastFrom]
  | cons ev rest ih =>
    have h1 := step_chain isOpen s ev
    have h2 := ih (s.step isOpen ev).1
    simp only [SecureSession.run, chainFrom_append, lastFrom_append, h1.1, h1.2, h2.1,
      h2.2, Bool.true_and]
    exact ⟨trivial, trivial⟩

theorem cop_step_no_connected (isOpen : Bool) (s : SecureSession) (op : COp) :
    State.kStateConnected ∉ (s.step isOpen op.toEv).2.1 := by
  cases op <;> cases isOpen <;> cases h : s.mState <;>
    simp [COp.toEv, SecureSession.step, SecureSession.Connect, SecureSession.Disconnect,
      SecureSession.DisconnectEvt, SecureSession.IsDisconnected, h]

theorem cop_run_no_connected (isOpen : Bool) (ops : List COp) (s : SecureSession) :
    State.kStateConnected ∉ (s.run isOpen (ops.map COp.toEv)).2.1 := by
  induction ops generalizing s with
  | nil => simp [SecureSession.run]
  | cons op rest ih =>
    simp only [List.map_cons, SecureSession.run, List.mem_append]
    push_neg
    exact ⟨cop_step_no_connected isOpen s op, ih (s.step isOpen op.toEv).1⟩

/-- C1: across any sequence of `Connect()`/`Disconnect()` operations, the
session's state moves only along the §4.1 edges
(Disconnected→Initializing→Connecting→Connected,
any-state→Disconnecting→Disconnected); in particular no such execution
ever reaches Connected (which is reachable only through Connecting). -/
theorem c1_state_machine_edges (isOpen : Bool) (s : SecureSession) (ops : List COp) :
    chainFrom s.mState (s.run isOpen (ops.map COp.toEv)).2.1 = true ∧
    State.kStateConnected ∉ (s.run isOpen (ops.map COp.toEv)).2.1 ∧
    (∀ a b : State, allowedEdge a b = true → b = State.kStateConnected →
      a = State.kStateConnecting) :=
  ⟨(run_chain isOpen (ops.map COp.toEv) s).1,
   cop_run_no_connected isOpen ops s,
   by intro a b hab hb; subst hb; cases a <;> simp_all [allowedEdge]⟩

theorem c1_state_machine_edges_witness :
    chainFrom initialSession.mState
      (initialSession.run true
        ([COp.connect { addr := 3, port := 4 }, COp.disconnect 7,
          COp.connect { addr := 5, port := 6 }].map COp.toEv)).2.1 = true ∧
    State.kStateConnected ∉
      (initialSession.run true
        ([COp.connect { addr := 3, port := 4 }, COp.disconnect 7,
          COp.connect { addr := 5, port := 6 }].map COp.toEv)).2.1 :=
  ⟨(c1_state_machine_edges true initialSession _).1,
   (c1_state_machine_edges true initialSession
      [COp.connect { addr := 3, port := 4 }, COp.disconnect 7,
       COp.connect { addr := 5, port := 6 }]).2.1⟩

theorem terminalCount_append (l1 l2 : List ConnectEvent) :
    terminalCount (l1 ++ l2) = terminalCount l1 + terminalCount l2 := by
  simp [terminalCount, List.filter_append]

theorem step_terminal (isOpen : Bool) (s : SecureSession) (ev : SessionEv) :
    terminalCount (s.step isOpen ev).2.2 =
      (if s.IsConnectionActive && (s.step isOpen ev).1.IsDisconnected then 1 else 0) := by
  cases ev <;> cases isOpen <;> cases h : s.mState <;>
    simp [SecureSession.step, SecureSession.Connect, SecureSession.Disconnect,
      SecureSession.DisconnectEvt, SecureSession.IsDisconnected,
      SecureSession.IsInitializing, SecureSession.IsConnectingOrConnected,
      SecureSession.IsConnectionActive, h, terminalCount, ConnectEvent.isTerminal]

theorem run_terminal (isOpen : Bool) (evs : List SessionEv) (s : SecureSession) :
    terminalCount (s.run isOpen evs).2.2 = s.runEnds isOpen evs := by
  induction evs generalizing s with
  | nil => simp [SecureSession.run, SecureSession.runEnds, terminalCount]
  | cons ev rest ih =>
    simp only [SecureSession.run, SecureSession.runEnds, terminalCount_append,
      step_terminal, ih (s.step isOpen ev).1]

/-- C5: along every run, the number of terminal connect events delivered
to `connectedCallback` equals the number of connection attempts that end
(active→Disconnected transitions) — exactly one per completed attempt —
and the public `Disconnect()` never produces `kDisconnectedPeerClosed`:
on an active session it delivers exactly `[kDisconnectedLocalClosed]`. -/
theorem c5_connected_callback (isOpen : Bool) (s : SecureSession) (evs : List SessionEv)
    (s' : SecureSession) (now : Nat) :
    terminalCount (s.run isOpen evs).2.2 = s.runEnds isOpen evs ∧
    ConnectEvent.kDisconnectedPeerClosed ∉ (s'.Disconnect now).2.2 ∧
    (s'.IsConnectionActive = true →
      (s'.Disconnect now).2.2 = [ConnectEvent.kDisconnectedLocalClosed]) := by
  refine ⟨run_terminal isOpen evs s, ?_, ?_⟩
  · cases h : s'.mState <;>
      simp [SecureSession.Disconnect, SecureSession.DisconnectEvt,
        SecureSession.IsDisconnected, h]
  · intro hAct
    cases h : s'.mState <;>
      simp_all [SecureSession.Disconnect, SecureSession.DisconnectEvt,
        SecureSession.IsDisconnected, SecureSession.IsConnectionActive, h]

theorem c5_connected_callback_witness :
    terminalCount
        (initialSession.run true
          [SessionEv.evConnect { addr := 3, port := 4 }, SessionEv.evSetupDone,
           SessionEv.evHandshakeDone, SessionEv.evDisconnect 9]).2.2 =
      initialSession.runEnds true
        [SessionEv.evConnect { addr := 3, port := 4 }, SessionEv.evSetupDone,
         SessionEv.evHandshakeDone, SessionEv.evDisconnect 9] ∧
    (connectedSession.Disconnect 9).2.2 = [ConnectEvent.kDisconnectedLocalClosed] :=
  ⟨(c5_connected_callback true initialSession
      [SessionEv.evConnect { addr := 3, port := 4 }, SessionEv.evSetupDone,
       SessionEv.evHandshakeDone, SessionEv.evDisconnect 9] initialSession 0).1,
   (c5_connected_callback true initialSession [] connectedSession 9).2.2 rfl⟩

theorem handleReceive_closed (t : SecureTransport) (info : MessageInfo) (now : Nat)
    (h : t.mIsOpen = false) :
    t.HandleReceive info now = (t, { accepted := false, autoClosed := false }) := by
  simp [SecureTransport.HandleReceive, h]

theorem runAttempts_closed (l : List (MessageInfo × Nat)) (t : SecureTransport)
    (h : t.mIsOpen = false) :
    t.runAttempts l = (t, 0, 0) := by
  induction l with
  | nil => rfl
  | cons x rest ih =>
    obtain ⟨info, now⟩ := x
    simp [SecureTransport.runAttempts, handleReceive_closed t info now h, ih]

theorem runAttempts_append (l1 l2 : List (MessageInfo × Nat)) (t : SecureTransport) :
    (t.runAttempts (l1 ++ l2)).1 = ((t.runAttempts l1).1.runAttempts l2).1 ∧
    (t.runAttempts (l1 ++ l2)).2.1 =
      (t.runAttempts l1).2.1 + ((t.runAttempts l1).1.runAttempts l2).2.1 ∧
    (t.runAttempts (l1 ++ l2)).2.2 =
      (t.runAttempts l1).2.2 + ((t.runAttempts l1).1.runAttempts l2).2.2 := by
  induction l1 generalizing t with
  | nil => simp [SecureTransport.runAttempts]
  | cons x rest ih =>
    obtain ⟨info, now⟩ := x
    have h := ih (t.HandleReceive info now).1
    simp only [List.cons_append, SecureTransport.runAttempts, List.append_eq,
      h.1, h.2.1, h.2.2]
    refine ⟨trivial, ?_, ?_⟩ <;> ring

theorem handleReceive_not_accepted (t : SecureTransport) (info : MessageInfo) (now : Nat)
    (h : (t.HandleReceive info now).2.accepted = false) :
    t.HandleReceive info now = (t, { accepted := false, autoClosed := false }) := by
  simp only [SecureTransport.HandleReceive] at h ⊢
  split_ifs at h ⊢ <;> simp_all

theorem handleReceive_accepted (t : SecureTransport) (info : MessageInfo) (now : Nat)
    (h : (t.HandleReceive info now).2.accepted = true) :
    t.mIsOpen = true ∧ t.HasNoRemainingConnectionAttempts = false ∧
    t.HandleReceive info now =
      ({ mIsOpen :=
           !(0 < t.mMaxConnectionAttempts && t.mRemainingConnectionAttempts - 1 == 0),
         mIsServer := t.mIsServer,
         mMaxConnectionAttempts := t.mMaxConnectionAttempts,
         mRemainingConnectionAttempts := t.mRemainingConnectionAttempts - 1,
         mSession :=
           { t.mSession with mState := State.kStateInitializing, mMessageInfo := info } },
       { accepted := true,
         autoClosed :=
           (0 < t.mMaxConnectionAttempts && t.mRemainingConnectionAttempts - 1 == 0) }) := by
  simp only [SecureTransport.HandleReceive,
    SecureTransport.DecremenetRemainingConnectionAttempts] at h ⊢
  split_ifs at h ⊢ <;>
    simp_all [SecureTransport.HasNoRemainingConnectionAttempts]
  omega

theorem runAttempts_bound (l : List (MessageInfo × Nat)) :
    ∀ t : SecureTransport, t.mIsOpen = true → 0 < t.mMaxConnectionAttempts →
    0 < t.mRemainingConnectionAttempts →
    (t.runAttempts l).2.1 ≤ t.mRemainingConnectionAttempts ∧
    ((t.runAttempts l).2.2 =
      if (t.runAttempts l).2.1 = t.mRemainingConnectionAttempts then 1 else 0) := by
  induction l with
  | nil =>
    intro t hOpen hMax hRem
    simp only [SecureTransport.runAttempts]
    constructor
    · omega
    · split <;> omega
  | cons x rest ih =>
    intro t hOpen hMax hRem
    obtain ⟨info, now⟩ := x
    by_cases ha : (t.HandleReceive info now).2.accepted = true
    · obtain ⟨-, -, hEq⟩ := handleReceive_accepted t info now ha
      by_cases hLast : t.mRemainingConnectionAttempts = 1
      · have hClosed :
            ((t.HandleReceive info now).1).mIsOpen = false := by
          rw [hEq]
          simp [hMax, hLast]
        have hRest := runAttempts_closed rest (t.HandleReceive info now).1 hClosed
        have hAuto : (t.HandleReceive info now).2.autoClosed = true := by
          rw [hEq]
          simp [hMax, hLast]
        simp only [SecureTransport.runAttempts, hRest, ha, hAuto]
        simp [hLast]
      · have hOpen1 : ((t.HandleReceive info now).1).mIsOpen = true := by
          rw [hEq]
          simp only [SecureTransport.mIsOpen]
          have : (t.mRemainingConnectionAttempts - 1 == 0) = false := by
            simp only [beq_eq_false_iff_ne]
            omega
          simp [this]
        have hMax1 : 0 < ((t.HandleReceive info now).1).mMaxConnectionAttempts := by
          rw [hEq]; exact hMax
        have hRem1 : 0 < ((t.HandleReceive info now).1).mRemainingConnectionAttempts := by
          rw [hEq]
          simp only [SecureTransport.mRemainingConnectionAttempts]
          omega
        have hih := ih (t.HandleReceive info now).1 hOpen1 hMax1 hRem1
        have hRemEq : ((t.HandleReceive info now).1).mRemainingConnectionAttempts =
            t.mRemainingConnectionAttempts - 1 := by
          rw [hEq]
        have hAuto : (t.HandleReceive info now).2.autoClosed = false := by
          rw [hEq]
          simp only [RxOutcome.autoClosed]
          have : (t.mRemainingConnectionAttempts - 1 == 0) = false := by
            simp only [beq_eq_false_iff_ne]
            omega
          simp [this]
        rw [hRemEq] at hih
        simp only [SecureTransport.runAttempts, ha, hAuto, if_true, if_false,
          Bool.false_eq_true]
        constructor
        · omega
        · rcases hih with ⟨h1, h2⟩
          rw [h2]
          split <;> split <;> omega
    · have hEq := handleReceive_not_accepted t info now (by simpa using ha)
      have hih := ih t hOpen hMax hRem
      simp only [SecureTransport.runAttempts, hEq]
      simpa using hih

theorem handleReceive_accepts (t : SecureTransport) (info : MessageInfo) (now : Nat)
    (hOpen : t.mIsOpen = true) (hSrv : t.mIsServer = true)
    (hSt : t.mSession.mState = State.kStateDisconnected ∨
      t.mSession.mState = State.kStateInitializing)
    (hMatch : t.mSession.Matches info = false)
    (hGuard : t.GuardBlocks info now = false)
    (hRem : t.HasNoRemainingConnectionAttempts = false) :
    (t.HandleReceive info now).2.accepted = true := by
  rcases hSt with h | h <;>
    · simp [SecureTransport.HandleReceive, hOpen, hSrv, h, hMatch, hGuard, hRem,
        SecureSession.IsConnectionActive, SecureSession.IsDisconnected,
        SecureSession.IsInitializing]
      split <;> simp

theorem mkAttempts_succ_head (n start : Nat) :
    mkAttempts (n + 1) start = (freshInfo start, 0) :: mkAttempts n (start + 1) := by
  unfold mkAttempts
  rw [List.range_succ_eq_map]
  simp only [List.map_cons, List.map_map, Nat.add_zero, List.cons.injEq, true_and]
  apply List.map_congr_left
  intro i _
  simp [Function.comp_apply, freshInfo, Prod.mk.injEq, MessageInfo.mk.injEq]
  omega

theorem mkAttempts_snoc (n start : Nat) :
    mkAttempts (n + 1) start = mkAttempts n start ++ [(freshInfo (start + n), 0)] := by
  unfold mkAttempts
  rw [List.range_succ]
  simp

theorem scenario_run (n : Nat) :
    ∀ (t : SecureTransport) (start : Nat),
    t.mIsOpen = true → t.mIsServer = true → 0 < t.mMaxConnectionAttempts →
    0 < t.mRemainingConnectionAttempts →
    t.mSession.mDisconnectTime = none →
    (t.mSession.mState = State.kStateDisconnected ∨
      t.mSession.mState = State.kStateInitializing) →
    t.mSession.mMessageInfo.peerAddr < start →
    (t.runAttempts (mkAttempts n start)).2.1 = min n t.mRemainingConnectionAttempts ∧
    (t.runAttempts (mkAttempts n start)).2.2 =
      (if t.mRemainingConnectionAttempts ≤ n then 1 else 0) ∧
    (t.mRemainingConnectionAttempts ≤ n →
      (t.runAttempts (mkAttempts n start)).1.mIsOpen = false) := by
  induction n with
  | zero =>
    intro t start hOpen hSrv hMax hRem hNone hSt hAddr
    refine ⟨by simp [mkAttempts, SecureTransport.runAttempts], ?_, ?_⟩
    · simp only [mkAttempts, List.range_zero, List.map_nil, SecureTransport.runAttempts]
      split <;> omega
    · intro h
      omega
  | succ n ih =>
    intro t start hOpen hSrv hMax hRem hNone hSt hAddr
    have hMatch : t.mSession.Matches (freshInfo start) = false := by
      have h1 : (t.mSession.mMessageInfo.peerAddr == start) = false := by
        simp only [beq_eq_false_iff_ne]
        omega
      simp [SecureSession.Matches, MessageInfo.HasSamePeerAddrAndPort, freshInfo, h1]
    have hGuard : t.GuardBlocks (freshInfo start) 0 = false := by
      simp [SecureTransport.GuardBlocks, hNone]
    have hNo : t.HasNoRemainingConnectionAttempts = false := by
      simp only [SecureTransport.HasNoRemainingConnectionAttempts]
      have h1 : (t.mRemainingConnectionAttempts == 0) = false := by
        simp only [beq_eq_false_iff_ne]
        omega
      simp [h1]
    have ha := handleReceive_accepts t (freshInfo start) 0 hOpen hSrv hSt hMatch hGuard hNo
    obtain ⟨-, -, hEq⟩ := handleReceive_accepted t (freshInfo start) 0 ha
    rw [mkAttempts_succ_head]
    by_cases hLast : t.mRemainingConnectionAttempts = 1
    · have hClosed : (t.HandleReceive (freshInfo start) 0).1.mIsOpen = false := by
        rw [hEq]
        simp [hMax, hLast]
      have hAuto : (t.HandleReceive (freshInfo start) 0).2.autoClosed = true := by
        rw [hEq]
        simp [hMax, hLast]
      have hRest := runAttempts_closed (mkAttempts n (start + 1))
        (t.HandleReceive (freshInfo start) 0).1 hClosed
      simp only [SecureTransport.runAttempts, hRest, ha, hAuto]
      refine ⟨by simp [hLast], by simp [hLast], fun _ => hClosed⟩
    · have hBeq : (t.mRemainingConnectionAttempts - 1 == 0) = false := by
        simp only [beq_eq_false_iff_ne]
        omega
      have hOpen1 : (t.HandleReceive (freshInfo start) 0).1.mIsOpen = true := by
        rw [hEq]
        simp [hBeq]
      have hSrv1 : (t.HandleReceive (freshInfo start) 0).1.mIsServer = true := by
        rw [hEq]; exact hSrv
      have hMax1 : 0 < (t.HandleReceive (freshInfo start) 0).1.mMaxConnectionAttempts := by
        rw [hEq]; exact hMax
      have hRem1 : 0 < (t.HandleReceive (freshInfo start) 0).1.mRemainingConnectionAttempts := by
        rw [hEq]
        simp only [SecureTransport.mRemainingConnectionAttempts]
        omega
      have hNone1 : (t.HandleReceive (freshInfo start) 0).1.mSession.mDisconnectTime = none := by
        rw [hEq]
        exact hNone
      have hSt1 : (t.HandleReceive (freshInfo start) 0).1.mSession.mState =
            State.kStateDisconnected ∨
          (t.HandleReceive (freshInfo start) 0).1.mSession.mState =
            State.kStateInitializing := by
        rw [hEq]
        exact Or.inr rfl
      have hAddr1 :
          (t.HandleReceive (freshInfo start) 0).1.mSession.mMessageInfo.peerAddr <
            start + 1 := by
        rw [hEq]
        simp [freshInfo]
      have hih := ih (t.HandleReceive (freshInfo start) 0).1 (start + 1)
        hOpen1 hSrv1 hMax1 hRem1 hNone1 hSt1 hAddr1
      have hRemEq : (t.HandleReceive (freshInfo start) 0).1.mRemainingConnectionAttempts =
          t.mRemainingConnectionAttempts - 1 := by
        rw [hEq]
      have hAuto : (t.HandleReceive (freshInfo start) 0).2.autoClosed = false := by
        rw [hEq]
        simp only [RxOutcome.autoClosed]
        simp [hBeq]
      rw [hRemEq] at hih
      simp only [SecureTransport.runAttempts, ha, hAuto, if_true, Bool.false_eq_true,
        if_false]
      obtain ⟨h1, h2, h3⟩ := hih
      refine ⟨by rw [h1]; omega, ?_, ?_⟩
      · rw [h2]
        split <;> split <;> omega
      · intro h
        exact h3 (by omega)

theorem openedTransport_eq (n : Nat) :
    openedTransport n =
      { mIsOpen := true, mIsServer := true, mMaxConnectionAttempts := n,
        mRemainingConnectionAttempts := n, mSession := initialSession } := by
  simp [openedTransport, closedServerTransport, SecureTransport.SetMaxConnectionAttempts,
    SecureTransport.Open]

/-- C3: from a closed transport, `SetMaxConnectionAttempts N` (N > 0)
followed by `Open` permits exactly N inbound acceptances: N fresh-peer
attempts are all accepted, the N-th closes the socket and fires the
auto-close callback exactly once, and the (N+1)-th attempt is dropped
with no observable effect; over any inbound sequence at most N attempts
are accepted and the callback fires exactly once when the N-th acceptance
happens; outbound `Connect()` never touches the counter; and a closed
transport drops every inbound datagram unchanged. -/
theorem c3_max_connection_attempts (N : Nat) (hN : 0 < N) :
    ((openedTransport N).runAttempts (mkAttempts N 1)).2.1 = N ∧
    ((openedTransport N).runAttempts (mkAttempts N 1)).2.2 = 1 ∧
    ((openedTransport N).runAttempts (mkAttempts N 1)).1.mIsOpen = false ∧
    ((openedTransport N).runAttempts (mkAttempts (N + 1) 1)).1 =
      ((openedTransport N).runAttempts (mkAttempts N 1)).1 ∧
    ((openedTransport N).runAttempts (mkAttempts (N + 1) 1)).2.1 = N ∧
    ((openedTransport N).runAttempts (mkAttempts (N + 1) 1)).2.2 = 1 ∧
    (∀ attempts : List (MessageInfo × Nat),
      ((openedTransport N).runAttempts attempts).2.1 ≤ N ∧
      ((openedTransport N).runAttempts attempts).2.2 =
        if ((openedTransport N).runAttempts attempts).2.1 = N then 1 else 0) ∧
    (∀ (t : SecureTransport) (peer : SockAddr),
      ((t.ConnectPeer peer).2).mRemainingConnectionAttempts =
        t.mRemainingConnectionAttempts) ∧
    (∀ (t : SecureTransport) (info : MessageInfo) (now : Nat), t.mIsOpen = false →
      t.HandleReceive info now = (t, { accepted := false, autoClosed := false })) := by
  have hT := openedTransport_eq N
  have hs := scenario_run N (openedTransport N) 1
    (by rw [hT]) (by rw [hT]) (by rw [hT]; exact hN) (by rw [hT]; exact hN)
    (by rw [hT]; rfl) (by rw [hT]; exact Or.inl rfl) (by rw [hT]; simp [initialSession])
  rw [hT] at hs
  simp only [SecureTransport.mRemainingConnectionAttempts, ← hT, Nat.min_self,
    Nat.le_refl, if_true] at hs
  obtain ⟨hAcc, hAuto, hClosedFun⟩ := hs
  have hClosed := hClosedFun trivial
  have hApp := runAttempts_append (mkAttempts N 1) [(freshInfo (1 + N), 0)]
    (openedTransport N)
  have hRest := runAttempts_closed [(freshInfo (1 + N), 0)]
    ((openedTransport N).runAttempts (mkAttempts N 1)).1 hClosed
  rw [← mkAttempts_snoc] at hApp
  refine ⟨hAcc, hAuto, hClosed, ?_, ?_, ?_, ?_, ?_, ?_⟩
  · rw [hApp.1, hRest]
  · rw [hApp.2.1, hRest, hAcc]
    simp
  · rw [hApp.2.2, hRest, hAuto]
    simp
  · intro attempts
    have hb := runAttempts_bound attempts (openedTransport N)
      (by rw [hT]) (by rw [hT]; exact hN) (by rw [hT]; exact hN)
    rw [hT] at hb
    simpa [← hT] using hb
  · intro t peer
    rfl
  · intro t info now h
    exact handleReceive_closed t info now h

theorem c3_max_connection_attempts_witness :
    0 < 2 ∧
    ((openedTransport 2).runAttempts (mkAttempts 2 1)).2.1 = 2 ∧
    ((openedTransport 2).runAttempts (mkAttempts 2 1)).2.2 = 1 ∧
    ((openedTransport 2).runAttempts (mkAttempts (2 + 1) 1)).1 =
      ((openedTransport 2).runAttempts (mkAttempts 2 1)).1 ∧
    ((openedTransport 2).runAttempts (mkAttempts 5 1)).2.1 ≤ 2 ∧
    ((closedServerTransport.ConnectPeer { addr := 3, port := 4 }).2).mRemainingConnectionAttempts =
      closedServerTransport.mRemainingConnectionAttempts ∧
    closedServerTransport.HandleReceive (freshInfo 9) 5 =
      (closedServerTransport, { accepted := false, autoClosed := false }) :=
  ⟨by decide,
   (c3_max_connection_attempts 2 (by decide)).1,
   (c3_max_connection_attempts 2 (by decide)).2.1,
   (c3_max_connection_attempts 2 (by decide)).2.2.2.1,
   ((c3_max_connection_attempts 2 (by decide)).2.2.2.2.2.2.1 (mkAttempts 5 1)).1,
   (c3_max_connection_attempts 2 (by decide)).2.2.2.2.2.2.2.1 closedServerTransport
     { addr := 3, port := 4 },
   (c3_max_connection_attempts 2 (by decide)).2.2.2.2.2.2.2.2 closedServerTransport
     (freshInfo 9) 5 rfl⟩

/-- A session that disconnected at time 1000 from the peer with address 1
(used by the C4 witness). -/
def guardSession : SecureSession :=
  { mState := State.kStateDisconnected
    mConnectEvent := ConnectEvent.kDisconnectedLocalClosed
    mMessageInfo := { peerAddr := 1, peerPort := 1, sockAddr := 0, sockPort := 0 }
    mDisconnectTime := some 1000 }

/-- An open server transport holding `guardSession`, with no
connection-attempt limit (used by the C4 witness). -/
def guardTransport : SecureTransport :=
  { mIsOpen := true
    mIsServer := true
    mMaxConnectionAttempts := 0
    mRemainingConnectionAttempts := 0
    mSession := guardSession }

theorem c4_guard_time_witness :
    guardTransport.HandleReceive (freshInfo 5) 2500 =
      (guardTransport, { accepted := false, autoClosed := false }) ∧
    (guardTransport.HandleReceive (freshInfo 5) 3100).2.accepted = true ∧
    (guardTransport.HandleReceive (freshInfo 5) 3100).1.mSession.mState =
      State.kStateInitializing :=
  ⟨(c4_guard_time guardTransport 1000 2500 (freshInfo 5) rfl rfl rfl rfl
      (by decide)).1 (by decide),
   ((c4_guard_time guardTransport 1000 3100 (freshInfo 5) rfl rfl rfl rfl
      (by decide)).2 (by decide) rfl).1,
   ((c4_guard_time guardTransport 1000 3100 (freshInfo 5) rfl rfl rfl rfl
      (by decide)).2 (by decide) rfl).2⟩

end MeshCoP
